import Mathlib

/-
Verification development for the xml-mover repository, centred on
main_batch_home_refactored.py: the parsed-XML value model, the generic
structural accessor (safe_get), text extraction, claim aggregation,
description-section splitting, document numbering/date derivation
(format_numbers), canonical record construction (create_parsed_result),
the per-file extraction-status/missing-field derivation, and the
per-year chunking/statistics orchestrator (process_year).

Python values coming out of xmltodict.parse (after prefix stripping) are
nested dicts, lists, strings and None; they are modelled by the XVal
inductive below.  Python truthiness and dict lookup are modelled
explicitly.  Functions whose Python originals recurse through arbitrary
nesting are given a structural fuel argument bounded by the node count
xsize, which strictly exceeds the nesting depth of any value, so the
fuel-exhaustion branch is unreachable.
-/

/-- Model of the Python values produced by xmltodict.parse after
namespace-prefix stripping: dicts with string keys, lists, strings, None.
These values are freshly built trees (no aliasing), so object identity,
which the source uses for cycle protection, coincides with occurrence
identity and is modelled by the position path of a node in the tree. -/
inductive XVal where
  | null
  | str (s : String)
  | dict (entries : List (String × XVal))
  | list (items : List XVal)

/-- Model of Python str.strip: drop leading and trailing whitespace
characters (the documents only exercise ASCII whitespace). -/
def pyStrip (s : String) : String :=
  String.mk (((s.data.dropWhile Char.isWhitespace).reverse.dropWhile Char.isWhitespace).reverse)

/-- Model of Python str.lower on the ASCII letters appearing in tags and
kind codes. -/
def pyLower (s : String) : String := String.mk (s.data.map Char.toLower)

/-- Model of Python str.upper on the ASCII letters appearing in kind
codes. -/
def pyUpper (s : String) : String := String.mk (s.data.map Char.toUpper)

/-- Character-list worker for pySplitLines; the accumulator holds the
current line reversed. -/
def splitLinesAux (acc : List Char) : List Char → List String
  | [] => if acc.isEmpty then [] else [String.mk acc.reverse]
  | c :: cs =>
    if c = '\n' then String.mk acc.reverse :: splitLinesAux [] cs
    else splitLinesAux (c :: acc) cs

/-- Model of Python str.splitlines for newline-separated text: splits at
each newline and drops a trailing empty line, keeping interior ones. -/
def pySplitLines (s : String) : List String := splitLinesAux [] s.data

/-- Whether a key is attribute-style, that is, starts with the at
sign (xmltodict's marker for XML attributes). -/
def keyIsAttr (k : String) : Bool :=
  match k.data with
  | c :: _ => c = '@'
  | [] => false

/-- Whether the first list occurs as a contiguous sublist of the second
(model of Python's substring containment on the character lists of
non-empty needles). -/
def containsSub (needle : List Char) : List Char → Bool
  | [] => needle.isEmpty
  | c :: rest => needle.isPrefixOf (c :: rest) || containsSub needle rest

/-- Python substring containment, needle in haystack. -/
def strContainsSub (hay needle : String) : Bool := containsSub needle.data hay.data

/-- Python truthiness for an XVal: None, the empty string, the empty dict
and the empty list are falsy; everything else is truthy. -/
def truthy : XVal → Bool
  | .null => false
  | .str s => s ≠ ""
  | .dict es => !es.isEmpty
  | .list xs => !xs.isEmpty

/-- True exactly on the model of Python None. -/
def isNull : XVal → Bool
  | .null => true
  | _ => false

/-- Python dict membership/lookup (first entry with the key; source dicts
have unique keys).  Returns some even when the stored value is None,
matching the distinction between an absent key and a key mapped to None. -/
def pyLookup : List (String × XVal) → String → Option XVal
  | [], _ => none
  | (k, v) :: es, key => if k = key then some v else pyLookup es key

/-- Lookup that also reports the entry index, used to name the position of
the matched value inside its parent when building occurrence paths. -/
def pyIndexedLookup : List (String × XVal) → String → Nat → Option (Nat × XVal)
  | [], _, _ => none
  | (k, v) :: es, key, i => if k = key then some (i, v) else pyIndexedLookup es key (i + 1)

/-- Python truthiness for an optional string (None and the empty string
are falsy). -/
def truthyOS : Option String → Bool
  | none => false
  | some s => s ≠ ""

/-- Contribution of one matched value inside safe_get's search loop
(source lines 78-92): a dict match is unwrapped through a "#text" or
"text" key when one is present; a non-empty list match queues its
elements (at their occurrence paths) instead of producing a result; any
other match is itself the result. -/
def matchContribution (nid : List Nat) (i : Nat) (value : XVal) :
    List XVal × List (List Nat × XVal) :=
  match value with
  | .dict ves =>
    (match pyLookup ves "#text" with
     | some t => ([t], [])
     | none =>
       match pyLookup ves "text" with
       | some t => ([t], [])
       | none => ([.dict ves], []))
  | .list (x :: xs) =>
    ([], ((x :: xs).enum.map fun je => (nid ++ [i, je.1], je.2)))
  | v => ([v], [])

/-- The breadth-first search loop of safe_get.  Queue entries carry the
occurrence path of the node, and the visited set stores paths of already
processed dict/list nodes, modelling the id-based visited set of the
source (the same node can be queued twice: once by the matched-list
branch and once by the values loop).  Fuel strictly exceeds the number of
loop iterations, so the fuel-exhaustion branch is unreachable. -/
def bfsLoop (key : String) :
    Nat → List (List Nat × XVal) → List (List Nat) → List XVal → List XVal
  | 0, _, _, results => results
  | _ + 1, [], _, results => results
  | fuel + 1, (nid, v) :: queue, visited, results =>
    match v with
    | .dict es =>
      if visited.contains nid then
        bfsLoop key fuel queue visited results
      else
        let contrib :=
          match pyIndexedLookup es key 0 with
          | some iv => matchContribution nid iv.1 iv.2
          | none => ([], [])
        let valueEntries := es.enum.filterMap fun ikv =>
          if isNull ikv.2.2 then none else some (nid ++ [ikv.1], ikv.2.2)
        bfsLoop key fuel (queue ++ contrib.2 ++ valueEntries) (nid :: visited)
          (results ++ contrib.1)
    | .list items =>
      if visited.contains nid then
        bfsLoop key fuel queue visited results
      else
        let itemEntries := items.enum.filterMap fun je =>
          if isNull je.2 then none else some (nid ++ [je.1], je.2)
        bfsLoop key fuel (queue ++ itemEntries) (nid :: visited) results
    | _ => bfsLoop key fuel queue visited results

/-- Final dispatch over the collected results of safe_get's search: no
match gives None, exactly one match gives the match itself, several
matches give the list of matches. -/
def dispatchResults : List XVal → XVal
  | [] => .null
  | [r] => r
  | rs => .list rs

mutual

/-- Number of nodes of a value tree; strictly exceeds its nesting depth. -/
def xsize : XVal → Nat
  | .null => 1
  | .str _ => 1
  | .dict es => 1 + xsizeEntries es
  | .list xs => 1 + xsizeItems xs

/-- Total node count of the values of a dict entry list. -/
def xsizeEntries : List (String × XVal) → Nat
  | [] => 0
  | (_, v) :: es => 1 + xsize v + xsizeEntries es

/-- Total node count of a list of values. -/
def xsizeItems : List XVal → Nat
  | [] => 0
  | v :: vs => 1 + xsize v + xsizeItems vs

end

/-- Fuel bound for the search loop: each loop iteration pops one queue
entry, the initial queue has one entry, and every node of the tree is
pushed at most three times (values loop of its parent dict, element loop
of its parent list, matched-list branch of its grandparent), so
iterations are under 4 * xsize + 4. -/
def bfsFuel (obj : XVal) : Nat := 4 * xsize obj + 4

/-- Model of safe_get (source lines 51-110): a None root gives None; a
dict root containing the key directly returns the stored value unchanged
(the fast path, which bypasses the unwrap rule); otherwise the
breadth-first search runs and its results are dispatched. -/
def safe_get (obj : XVal) (key : String) : XVal :=
  match obj with
  | .dict es =>
    match pyLookup es key with
    | some v => v
    | none => dispatchResults (bfsLoop key (bfsFuel (XVal.dict es)) [([], XVal.dict es)] [] [])
  | .null => .null
  | other => dispatchResults (bfsLoop key (bfsFuel other) [([], other)] [] [])

/-- Model of safe_dict_get (source lines 44-48) with a default. -/
def safe_dict_get (d : XVal) (key : String) (default : XVal) : XVal :=
  match d with
  | .dict es =>
    match pyLookup es key with
    | some v => v
    | none => default
  | _ => default

/-- Model of extract_text (source lines 116-157) with structural fuel.
A string is trimmed; a dict with a truthy "#text" or "text" entry
recurses into that entry; otherwise the dict's non-attribute values (keys
not starting with "@") contribute their truthy texts joined with a
newline; a list contributes its items' truthy texts joined with a
newline; an empty collection of texts gives None.  Every recursive call
descends to a proper subvalue, so fuel at least xsize never runs out. -/
def extractTextFuel : Nat → XVal → Option String
  | 0, _ => none
  | _ + 1, .null => none
  | _ + 1, .str s => some (pyStrip s)
  | fuel + 1, .dict es =>
    let textKeyValue : Option XVal :=
      match pyLookup es "#text" with
      | some v =>
        if truthy v then some v
        else
          match pyLookup es "text" with
          | some w => if truthy w then some w else none
          | none => none
      | none =>
        match pyLookup es "text" with
        | some w => if truthy w then some w else none
        | none => none
    match textKeyValue with
    | some v => extractTextFuel fuel v
    | none =>
      let texts := es.filterMap fun kv =>
        if keyIsAttr kv.1 then none
        else
          match extractTextFuel fuel kv.2 with
          | some t => if t = "" then none else some t
          | none => none
      if texts.isEmpty then none else some (String.intercalate "\n" texts)
  | fuel + 1, .list items =>
    let texts := items.filterMap fun v =>
      match extractTextFuel fuel v with
      | some t => if t = "" then none else some t
      | none => none
    if texts.isEmpty then none else some (String.intercalate "\n" texts)

/-- extract_text at its sufficient fuel. -/
def extract_text (x : XVal) : Option String := extractTextFuel (xsize x) x

/-- Python f-string/str rendering of a value, as used for claim numbers.
Attribute values produced by xmltodict are always strings or None; the
reprs of nested containers are abbreviated since no document puts a
container in a numbering attribute. -/
def pyFStr : XVal → String
  | .str s => s
  | .null => "None"
  | .dict _ => "\x7b...\x7d"
  | .list _ => "[...]"

/-- One claim entry of the Business-format claim loop (source lines
194-205): a non-dict entry is skipped; the claim number is the "@num"
attribute when the key is present, else the 1-based position; the claim
text comes from the "ClaimText" child when present, else from the whole
entry; a truthy text yields "num. text". -/
def businessClaimOne (i : Nat) (c : XVal) : Option String :=
  match c with
  | .dict es =>
    let num :=
      match pyLookup es "@num" with
      | some v => pyFStr v
      | none => toString i
    let text :=
      match pyLookup es "ClaimText" with
      | some ct => extract_text ct
      | none => extract_text (.dict es)
    match text with
    | some t => if t = "" then none else some (num ++ ". " ++ t)
    | none => none
  | _ => none

/-- The Business-format claim strings (source lines 190-215): a list is
processed entry by entry with 1-based positions; a single dict claim uses
default number "1"; anything else contributes nothing. -/
def businessClaimStrings (claimList : XVal) : List String :=
  match claimList with
  | .list cs => (cs.enumFrom 1).filterMap fun ic => businessClaimOne ic.1 ic.2
  | .dict es =>
    (let num :=
      match pyLookup es "@num" with
      | some v => pyFStr v
      | none => "1"
     let text :=
      match pyLookup es "ClaimText" with
      | some ct => extract_text ct
      | none => extract_text (.dict es)
     match text with
     | some t => if t = "" then none else some (num ++ ". " ++ t)
     | none => none).toList
  | _ => []

/-- One claim entry of the CN-format claim loop (source lines 238-249): a
claim number is computed exactly as in the Business loop but is not used;
only the bare claim text is kept. -/
def cnClaimOne (i : Nat) (c : XVal) : Option String :=
  match c with
  | .dict es =>
    let _num :=
      match pyLookup es "@num" with
      | some v => pyFStr v
      | none => toString i
    let text :=
      match pyLookup es "claim-text" with
      | some ct => extract_text ct
      | none => extract_text (.dict es)
    match text with
    | some t => if t = "" then none else some t
    | none => none
  | _ => none

/-- The CN-format claim strings (source lines 236-260). -/
def cnClaimStrings (claimList : XVal) : List String :=
  match claimList with
  | .list cs => (cs.enumFrom 1).filterMap fun ic => cnClaimOne ic.1 ic.2
  | .dict es =>
    (let _num :=
      match pyLookup es "@num" with
      | some v => pyFStr v
      | none => "1"
     let text :=
      match pyLookup es "claim-text" with
      | some ct => extract_text ct
      | none => extract_text (.dict es)
     match text with
     | some t => if t = "" then none else some t
     | none => none).toList
  | _ => []

/-- Model of extract_claims (source lines 179-274).  First the
Business-format path (a truthy "Claims" section whose "Claim" entries
produce numbered strings joined with the paragraph mark), then the
CN-format path (a truthy dict "claims" section under "application-body"
whose "claim" entries produce unnumbered strings joined with the
paragraph mark), then a deep search for "claim-text" or "ClaimText". -/
def extract_claims (root : XVal) : Option String :=
  let claimsSection :=
    match root with
    | .dict es => pyLookup es "Claims"
    | _ => none
  let businessResult :=
    match claimsSection with
    | some cs =>
      if truthy cs then
        let claimList := safe_get cs "Claim"
        if truthy claimList then
          let allClaims := businessClaimStrings claimList
          if allClaims.isEmpty then none else some (String.intercalate "¶" allClaims)
        else none
      else none
    | none => none
  match businessResult with
  | some s => some s
  | none =>
    let cnResult :=
      match root with
      | .dict es =>
        match pyLookup es "application-body" with
        | some (.dict abes) =>
          match pyLookup abes "claims" with
          | some cs =>
            if truthy cs then
              match cs with
              | .dict cses =>
                let claimList := safe_get (.dict cses) "claim"
                if truthy claimList then
                  let allClaims := cnClaimStrings claimList
                  if allClaims.isEmpty then none
                  else some (String.intercalate "¶" allClaims)
                else none
              | _ => none
            else none
          | none => none
        | _ => none
      | _ => none
    match cnResult with
    | some s => some s
    | none =>
      let d1 := safe_get root "claim-text"
      let deepClaims := if truthy d1 then d1 else safe_get root "ClaimText"
      if truthy deepClaims then extract_text deepClaims else none

/-- Model of is_table_like (source lines 381-423, with all but the first
rule commented out in the source): a non-empty line is table-like when
its count of digits and arithmetic punctuation exceeds 40 percent of its
length; the comparison is exact-rational (5 * count > 2 * length), which
agrees with the source's floating comparison at every realistic length. -/
def is_table_like (text : String) : Bool :=
  if text = "" then false
  else 5 * (text.data.filter fun c => c.isDigit || "-+*/,.()%".data.contains c).length
         > 2 * text.length

/-- Model of scrub_tables (source lines 425-439): drop blank and
table-like lines, rejoin with blank-line separators, strip, and return
None when nothing remains.  Lines are split at the newline character, the
only line separator occurring in extracted text. -/
def scrub_tables (rawText : Option String) : Option String :=
  match rawText with
  | none => none
  | some s =>
    if s = "" then none
    else
      let cleanLines := (pySplitLines s).filter fun line =>
        pyStrip line ≠ "" && !is_table_like line
      let result := pyStrip (String.intercalate "\n\n" cleanLines)
      if result = "" then none else some result

/-- The drawings-section heading markers (source lines 302-304). -/
def DRAWING_MARKERS : List String := ["[도면의 간단한 설명]", "도면의 간단한 설명"]

/-- The embodiments-section heading markers (source lines 307-309). -/
def EMBODIMENT_MARKERS : List String :=
  ["[발명을 실시하기 위한 구체적인 내용]", "더욱 상세하게 설명한다", "구체적인 실시방식:"]

/-- Whether any marker occurs, lower-cased, inside the lower-cased text. -/
def markersHit (text : String) (markers : List String) : Bool :=
  markers.any fun m => strContainsSub (pyLower text) (pyLower m)

/-- Keep a text only when truthy, as the source's loops do before
collecting paragraph texts. -/
def truthyText : Option String → Option String
  | some s => if s = "" then none else some s
  | none => none

/-- Scan state of the marker loop of extract_description_sections:
the last seen drawings-marker index, the last seen embodiments-marker
index, and the drawings section assembled so far. -/
structure DescScanState where
  drawingsIdx : Option Nat
  embodimentIdx : Option Nat
  brief : Option String

/-- One step of the marker loop (source lines 330-358): a falsy paragraph
is skipped; a short paragraph containing a drawings marker records its
index; a short paragraph containing an embodiments marker first closes
the drawings section (the truthy texts strictly between the drawings
marker and this paragraph, joined with blank lines, kept only when
non-empty) and then records its index. -/
def descScanStep (paragraphs : List XVal) (st : DescScanState) (ip : Nat × XVal) :
    DescScanState :=
  match truthyText (extract_text ip.2) with
  | none => st
  | some t =>
    if markersHit t DRAWING_MARKERS && t.length < 100 then
      { st with drawingsIdx := some ip.1 }
    else if markersHit t EMBODIMENT_MARKERS && t.length < 100 then
      let brief :=
        match st.drawingsIdx with
        | some d =>
          if d < ip.1 then
            let ps := (paragraphs.drop (d + 1)).take (ip.1 - d - 1)
            let drawTexts := ps.filterMap fun q => truthyText (extract_text q)
            if drawTexts.isEmpty then st.brief
            else some (String.intercalate "\n\n" drawTexts)
          else st.brief
        | none => st.brief
      { drawingsIdx := st.drawingsIdx, embodimentIdx := some ip.1, brief := brief }
    else st

/-- Model of extract_description_sections (source lines 299-379):
returns the marker-derived drawings section, the marker-derived
embodiments section (all truthy texts after the last embodiments marker),
and the full undivided description (all truthy paragraph texts joined
with blank lines).  A drawings marker with no embodiments marker after it
produces no drawings section. -/
def extract_description_sections (paragraphs : List XVal) :
    Option String × Option String × Option String :=
  let fullTexts := paragraphs.filterMap fun p => truthyText (extract_text p)
  let full := if fullTexts.isEmpty then none
              else some (String.intercalate "\n\n" fullTexts)
  let st := paragraphs.enum.foldl (descScanStep paragraphs)
    ⟨none, none, none⟩
  let emb :=
    match st.embodimentIdx with
    | some e =>
      let ts := (paragraphs.drop (e + 1)).filterMap fun q => truthyText (extract_text q)
      if ts.isEmpty then none else some (String.intercalate "\n\n" ts)
    | none => none
  (st.brief, emb, full)

/-- First value among the given keys present in the entry list (the
source breaks at the first key contained in the dict, even when its
value is falsy). -/
def firstKeyOf (es : List (String × XVal)) : List String → Option XVal
  | [] => none
  | k :: ks =>
    match pyLookup es k with
    | some v => some v
    | none => firstKeyOf es ks

/-- Model of extract_structured_description (source lines 1307-1353):
tag-based extraction of the drawings and embodiments sections (scrubbed
of table-like lines) is tried first; when either is still falsy, the
marker-based sections fill the gaps; the full undivided description text
is extracted from the description dict independently. -/
def extract_structured_description (description : XVal) (allParagraphs : List XVal) :
    Option String × Option String × Option String :=
  let tagSections :=
    match description with
    | .dict es =>
      (firstKeyOf es ["drawings-description", "description-of-drawings",
                      "DrawingsDescription", "drawings"],
       firstKeyOf es ["detailed-description", "invention-description", "embodiments",
                      "mode-for-invention", "InventionMode"])
    | _ => (none, none)
  let drawing1 : Option String :=
    match tagSections.1 with
    | some v => if truthy v then scrub_tables (extract_text v) else none
    | none => none
  let emb1 : Option String :=
    match tagSections.2 with
    | some v => if truthy v then scrub_tables (extract_text v) else none
    | none => none
  let merged :=
    if !truthyOS drawing1 || !truthyOS emb1 then
      if allParagraphs.isEmpty then (drawing1, emb1)
      else
        let markerSections := extract_description_sections allParagraphs
        (if !truthyOS drawing1 && truthyOS markerSections.1 then markerSections.1
         else drawing1,
         if !truthyOS emb1 && truthyOS markerSections.2.1 then markerSections.2.1
         else emb1)
    else (drawing1, emb1)
  let full :=
    match description with
    | .dict es => extract_text (.dict es)
    | _ => none
  (merged.1, merged.2, full)

/-- Model of extract_description_paragraphs (source lines 1287-1304). -/
def extract_description_paragraphs (description : XVal) : List XVal :=
  match description with
  | .dict es =>
    match pyLookup es "p" with
    | some (.list ps) => ps
    | some p => [p]
    | none =>
      match pyLookup es "Paragraphs" with
      | some (.list ps) => ps
      | some p => [p]
      | none => []
  | _ => []

/-- Model of clean_application_number (source lines 664-673): keep the
part of the number before the first decimal point; falsy inputs are
returned unchanged. -/
def clean_application_number (appNumber : Option String) : Option String :=
  match appNumber with
  | none => none
  | some s => some (String.mk (s.data.takeWhile fun c => c ≠ '.'))

/-- Character-list digits to a natural number. -/
def digitsToNat (l : List Char) : Nat :=
  l.foldl (fun acc c => acc * 10 + (c.toNat - '0'.toNat)) 0

/-- Days of a month in the Gregorian calendar, as validated by Python's
datetime when parsing a date. -/
def daysInMonth (y m : Nat) : Nat :=
  if m = 2 then
    if y % 4 = 0 && (y % 100 ≠ 0 || y % 400 = 0) then 29 else 28
  else if m = 4 || m = 6 || m = 9 || m = 11 then 30
  else 31

/-- Parse the canonical eight-digit YYYYMMDD date format carried by the
documents (the lenience of Python's strptime on shorter digit runs is
not reproduced; no derivation below depends on it). -/
def parseYmd8 (s : String) : Option (Nat × Nat × Nat) :=
  if s.data.length = 8 && s.data.all Char.isDigit then
    let y := digitsToNat (s.data.take 4)
    let m := digitsToNat ((s.data.drop 4).take 2)
    let d := digitsToNat (s.data.drop 6)
    if 1 ≤ m && m ≤ 12 && 1 ≤ d && d ≤ daysInMonth y m then some (y, m, d)
    else none
  else none

/-- Model of calculate_date_diff (source lines 442-456): the signed month
delta between two YYYYMMDD dates, None when either is absent or does not
parse. -/
def calculate_date_diff (appDate pubDate : Option String) : Option Int :=
  match appDate, pubDate with
  | some a, some p =>
    if a = "" || p = "" then none
    else
      match parseYmd8 a, parseYmd8 p with
      | some (y1, m1, _), some (y2, m2, _) =>
        some (((y2 : Int) - y1) * 12 + ((m2 : Int) - m1))
      | _, _ => none
  | _, _ => none

/-- The source's kind test: the kind string is truthy and its upper-case
form is one of the given codes. -/
def kindIn (kind : Option String) (codes : List String) : Bool :=
  match kind with
  | some k => k ≠ "" && codes.contains (pyUpper k)
  | none => false

/-- The seven derived numbering/date fields of format_numbers, in the
order the source returns them. -/
structure FormattedNumbers where
  appNumberClean : Option String
  publicationNumber : Option String
  publicationDate : Option String
  openNumber : Option String
  openDate : Option String
  registerNumber : Option String
  registerDate : Option String

/-- Model of format_numbers (source lines 458-514).  Kind B/C: the
publication pair is the truthy publication number and the raw date, the
register number is the truthy cleaned application number, the register
date is the publication date, and the open number is back-filled from
the raw publication number only when the application-to-publication month
gap exceeds 18, with the open date left None.  Kind U/Y: the open pair is
always None and the publication/register fields are set as for B/C.
Kind A: only the open pair is populated.  Any other kind leaves all
derived fields None. -/
def format_numbers (appNumber pubNumber pubDate kind appDate : Option String) :
    FormattedNumbers :=
  let cleanApp := clean_application_number appNumber
  if kindIn kind ["B", "C"] then
    let openNumber :=
      match calculate_date_diff appDate pubDate with
      | some m => if m > 18 then pubNumber else none
      | none => none
    { appNumberClean := cleanApp
      publicationNumber := if truthyOS pubNumber then pubNumber else none
      publicationDate := pubDate
      openNumber := openNumber
      openDate := none
      registerNumber := if truthyOS cleanApp then cleanApp else none
      registerDate := pubDate }
  else if kindIn kind ["U", "Y"] then
    { appNumberClean := cleanApp
      publicationNumber := if truthyOS pubNumber then pubNumber else none
      publicationDate := pubDate
      openNumber := none
      openDate := none
      registerNumber := if truthyOS cleanApp then cleanApp else none
      registerDate := pubDate }
  else if kindIn kind ["A"] then
    { appNumberClean := cleanApp
      publicationNumber := none
      publicationDate := none
      openNumber := if truthyOS pubNumber then pubNumber else none
      openDate := pubDate
      registerNumber := none
      registerDate := none }
  else
    { appNumberClean := cleanApp
      publicationNumber := none
      publicationDate := none
      openNumber := none
      openDate := none
      registerNumber := none
      registerDate := none }

/-- The canonical record shape produced by create_parsed_result, with its
twenty data fields in source dict order (the meta block added later by
process_xml_file carries no extraction data and is not modelled). -/
structure ParsedResult where
  MainCPC : Option String
  Kind : Option String
  OpenNumber : Option String
  OpenDate : Option String
  RegisterNumber : Option String
  RegisterDate : Option String
  PublicationNumber : Option String
  PublicationDate : Option String
  ApplicationNumber : Option String
  ApplicationDate : Option String
  ApplicantName : Option String
  InventorName : Option String
  AgentName : Option String
  Title : Option String
  Summary : Option String
  SummaryOfInvention : Option String
  BriefDescriptionOfDrawings : Option String
  DescriptionOfEmbodiments : Option String
  Description : Option String
  Claims : Option String

/-- Model of create_parsed_result (source lines 1356-1381):
SummaryOfInvention is always None, and Description carries the full
undivided text exactly when the drawings section or the embodiments
section is falsy, else None. -/
def create_parsed_result (mainCpc kind openNumber openDate registerNumber registerDate
    pubNumber pubDate appNumber appDate applicantName inventorName agentName title
    summary drawingSection embodimentSection fullDescriptionText claims :
    Option String) : ParsedResult :=
  { MainCPC := mainCpc
    Kind := kind
    OpenNumber := openNumber
    OpenDate := openDate
    RegisterNumber := registerNumber
    RegisterDate := registerDate
    PublicationNumber := pubNumber
    PublicationDate := pubDate
    ApplicationNumber := appNumber
    ApplicationDate := appDate
    ApplicantName := applicantName
    InventorName := inventorName
    AgentName := agentName
    Title := title
    Summary := summary
    SummaryOfInvention := none
    BriefDescriptionOfDrawings := drawingSection
    DescriptionOfEmbodiments := embodimentSection
    Description := if !truthyOS drawingSection || !truthyOS embodimentSection
                   then fullDescriptionText else none
    Claims := claims }

/-- The record's data fields with their names, in source dict order, as
iterated by process_xml_file when deriving the extraction status. -/
def recordFields (r : ParsedResult) : List (String × Option String) :=
  [("MainCPC", r.MainCPC), ("Kind", r.Kind), ("OpenNumber", r.OpenNumber),
   ("OpenDate", r.OpenDate), ("RegisterNumber", r.RegisterNumber),
   ("RegisterDate", r.RegisterDate), ("PublicationNumber", r.PublicationNumber),
   ("PublicationDate", r.PublicationDate), ("ApplicationNumber", r.ApplicationNumber),
   ("ApplicationDate", r.ApplicationDate), ("ApplicantName", r.ApplicantName),
   ("InventorName", r.InventorName), ("AgentName", r.AgentName), ("Title", r.Title),
   ("Summary", r.Summary), ("SummaryOfInvention", r.SummaryOfInvention),
   ("BriefDescriptionOfDrawings", r.BriefDescriptionOfDrawings),
   ("DescriptionOfEmbodiments", r.DescriptionOfEmbodiments),
   ("Description", r.Description), ("Claims", r.Claims)]

/-- Field presence as judged by process_xml_file (source line 715):
the value is neither None nor the empty string. -/
def fieldPresent : Option String → Bool
  | none => false
  | some s => s ≠ ""

/-- The extraction status derived in process_xml_file (source lines
713-715): every non-meta record field mapped to its presence. -/
def extraction_status (r : ParsedResult) : List (String × Bool) :=
  (recordFields r).map fun kv => (kv.1, fieldPresent kv.2)

/-- The missing-field list derived in process_xml_file (source line 717). -/
def detected_missing_fields (r : ParsedResult) : List String :=
  (extraction_status r).filterMap fun kv => if kv.2 then none else some kv.1

/-- The missing-field report shape of process_xml_file (source lines
742-747). -/
structure MissingDetails where
  fullFilePath : String
  missingFields : List String
  contextualIssues : Option (List String)

/-- The contextual issues derived in process_xml_file (source lines
720-739): a tag for a missing Description when a description sub-section
is absent, and a tag naming the missing open fields of a Kind-A
document. -/
def contextual_issues (r : ParsedResult) (missing : List String) : List String :=
  let c1 :=
    if (!truthyOS r.BriefDescriptionOfDrawings || !truthyOS r.DescriptionOfEmbodiments)
        && missing.contains "Description" then
      ["Description_missing_when_drawings_or_embodiments_absent"]
    else []
  let c2 :=
    if r.Kind = some "A" then
      let missingA :=
        (if missing.contains "OpenNumber" then ["OpenNumber"] else []) ++
        (if missing.contains "OpenDate" then ["OpenDate"] else [])
      if missingA.isEmpty then []
      else ["Kind_A_missing_" ++ String.intercalate "_and_" missingA]
    else []
  c1 ++ c2

/-- The missing-details value built by process_xml_file (source lines
719-747): created exactly when at least one field is missing, with the
contextual issue list replaced by None when empty. -/
def missing_details (path : String) (r : ParsedResult) : Option MissingDetails :=
  let missing := detected_missing_fields r
  if missing.isEmpty then none
  else
    let issues := contextual_issues r missing
    some ⟨path, missing, if issues.isEmpty then none else some issues⟩

/-- Abstraction of one successfully parsed per-file result as consumed by
process_year's loop: the serialized byte size of the record, the
extraction-status map, the record's Kind, the truthiness of its two
description sub-sections, and its optional missing-field report
(represented by an opaque label). -/
structure Item where
  size : Nat
  status : List (String × Bool)
  kind : Option String
  hasBriefDrawings : Bool
  hasEmbodiments : Bool
  missing : Option String

/-- Python dict.get with default False over an extraction-status map. -/
def statusGet : List (String × Bool) → String → Bool
  | [], _ => false
  | (k, b) :: rest, f => if k = f then b else statusGet rest f

/-- The per-field success-count update loop of process_year (source lines
915-916 and 932-933): every field extracted in the status map has its
counter incremented. -/
def bumpFields (status : List (String × Bool)) (c : String → Nat) : String → Nat :=
  status.foldl
    (fun acc p => if p.2 then fun f => if f = p.1 then acc f + 1 else acc f else acc) c

/-- One statistics accumulator of process_year: the processed-item count,
the per-field success counters, the Kind-A special counters and the
description-fallback counters.  The same shape is kept at chunk level and
at year level. -/
structure StatsAcc where
  items : Nat
  fields : String → Nat
  kindATotal : Nat
  kindAOpenNumber : Nat
  kindAOpenDate : Nat
  descTotal : Nat
  descSucc : Nat

/-- The all-zero statistics accumulator (the source's freshly initialised
counters). -/
def emptyStats : StatsAcc :=
  { items := 0, fields := fun _ => 0, kindATotal := 0, kindAOpenNumber := 0,
    kindAOpenDate := 0, descTotal := 0, descSucc := 0 }

/-- The statistics update applied once to the year accumulator (source
lines 914-925) and once to the chunk accumulator (source lines 931-942)
for each parsed item: item count, per-field successes, Kind-A open-field
successes and description-fallback successes. -/
def updateStats (it : Item) (a : StatsAcc) : StatsAcc :=
  let a1 := { a with items := a.items + 1, fields := bumpFields it.status a.fields }
  let a2 :=
    if it.kind = some "A" then
      { a1 with
        kindATotal := a1.kindATotal + 1
        kindAOpenNumber := if statusGet it.status "OpenNumber" then a1.kindAOpenNumber + 1
                           else a1.kindAOpenNumber
        kindAOpenDate := if statusGet it.status "OpenDate" then a1.kindAOpenDate + 1
                         else a1.kindAOpenDate }
    else a1
  if !it.hasBriefDrawings || !it.hasEmbodiments then
    { a2 with
      descTotal := a2.descTotal + 1
      descSucc := if statusGet it.status "Description" then a2.descSucc + 1
                  else a2.descSucc }
  else a2

/-- One sealed output chunk together with its sibling reports: the
records written to the chunk data file, the chunk-level statistics
accumulator serialized next to it, and the chunk-level missing-item
list. -/
structure ChunkReport where
  data : List Item
  stats : StatsAcc
  missing : List String

/-- The consumer-loop state of process_year: sealed chunks so far, the
active chunk (records, cumulative serialized size, statistics, missing
list), the year-level statistics and missing list, and the
success/failure tallies. -/
structure YearState where
  sealed : List ChunkReport
  curData : List Item
  curSize : Nat
  curStats : StatsAcc
  curMissing : List String
  yearStats : StatsAcc
  yearMissing : List String
  successCount : Nat
  failCount : Nat

/-- The state at the start of a year (source lines 875-896). -/
def initState : YearState :=
  { sealed := [], curData := [], curSize := 0, curStats := emptyStats,
    curMissing := [], yearStats := emptyStats, yearMissing := [],
    successCount := 0, failCount := 0 }

/-- One iteration of process_year's consumer loop (source lines 904-990)
on a completed result: a failed result only counts the failure; a parsed
item first updates the year and chunk statistics and missing lists, then,
when the active chunk is non-empty and already holds max_items records or
would grow past max_size_bytes, the active chunk is sealed (its records,
its statistics including the current item, and its missing list are
written out) and all chunk accumulators are reset, and finally the item
itself is appended to the now-active chunk. -/
def processResult (maxItems maxSizeBytes : Nat) (st : YearState) (r : Option Item) :
    YearState :=
  match r with
  | none => { st with failCount := st.failCount + 1 }
  | some it =>
    let yearStats := updateStats it st.yearStats
    let yearMissing := st.yearMissing ++ it.missing.toList
    let curMissing := st.curMissing ++ it.missing.toList
    let curStats := updateStats it st.curStats
    if st.curData.isEmpty = false ∧
        (maxItems ≤ st.curData.length ∨ maxSizeBytes < st.curSize + it.size) then
      { sealed := st.sealed ++ [{ data := st.curData, stats := curStats,
                                  missing := curMissing }]
        curData := [it]
        curSize := it.size
        curStats := emptyStats
        curMissing := []
        yearStats := yearStats
        yearMissing := yearMissing
        successCount := st.successCount + 1
        failCount := st.failCount }
    else
      { sealed := st.sealed
        curData := st.curData ++ [it]
        curSize := st.curSize + it.size
        curStats := curStats
        curMissing := curMissing
        yearStats := yearStats
        yearMissing := yearMissing
        successCount := st.successCount + 1
        failCount := st.failCount }

/-- What a year's run leaves behind: the chunk files on disk with their
sibling reports, the year-level statistics and missing list (serialized
at normal completion, returned to the caller on interruption), the
tallies, and whether the year was interrupted. -/
structure YearOutcome where
  chunksOnDisk : List ChunkReport
  yearStats : StatsAcc
  yearMissing : List String
  successCount : Nat
  failCount : Nat
  interrupted : Bool

/-- Normal end of year (source lines 996-1064): the remaining partial
chunk, when non-empty, is sealed with its statistics and missing list,
then the year-level reports are serialized. -/
def finishYear (st : YearState) : YearOutcome :=
  { chunksOnDisk :=
      st.sealed ++
        (if st.curData.isEmpty = false then
          [{ data := st.curData, stats := st.curStats, missing := st.curMissing }]
         else [])
    yearStats := st.yearStats
    yearMissing := st.yearMissing
    successCount := st.successCount
    failCount := st.failCount
    interrupted := false }

/-- The KeyboardInterrupt handler of process_year (source lines
1023-1035): the partial chunk is not sealed, the chunks already sealed
stay on disk, and the year-level statistics and missing reports
accumulated so far are generated and returned. -/
def interruptYear (st : YearState) : YearOutcome :=
  { chunksOnDisk := st.sealed
    yearStats := st.yearStats
    yearMissing := st.yearMissing
    successCount := st.successCount
    failCount := st.failCount
    interrupted := true }

/-- An event seen by process_year's consumer loop: a completed per-file
result, or a user-initiated interruption striking between results. -/
inductive YearEvent where
  | result (r : Option Item)
  | interrupt

/-- The consumer loop of process_year over a stream of events: results
are folded into the state, an interruption aborts the loop through the
KeyboardInterrupt handler, and exhausting the stream finishes the year
normally. -/
def runEvents (maxItems maxSizeBytes : Nat) : YearState → List YearEvent → YearOutcome
  | st, [] => finishYear st
  | st, YearEvent.interrupt :: _ => interruptYear st
  | st, YearEvent.result r :: rest =>
    runEvents maxItems maxSizeBytes (processResult maxItems maxSizeBytes st r) rest

/-- The consumer-loop state after an uninterrupted sequence of results. -/
def runYearState (maxItems maxSizeBytes : Nat) (results : List (Option Item)) :
    YearState :=
  results.foldl (processResult maxItems maxSizeBytes) initState

/-- Model of process_year (source lines 864-1070) on a year whose worker
pool delivers the given results in arrival order, run to completion. -/
def process_year (maxItems maxSizeBytes : Nat) (results : List (Option Item)) :
    YearOutcome :=
  runEvents maxItems maxSizeBytes initState (results.map YearEvent.result)

/-- Characterization of the source's kind test. -/
theorem kindIn_iff (kind : Option String) (codes : List String) :
    kindIn kind codes = true ↔
      ∃ k, kind = some k ∧ k ≠ "" ∧ pyUpper k ∈ codes := by
  cases kind with
  | none => simp [kindIn]
  | some k =>
    simp [kindIn, List.contains, List.elem_iff]

/-- A kind recognised as U/Y is not recognised as B/C. -/
theorem kindIn_UY_not_BC (kind : Option String) (h : kindIn kind ["U", "Y"] = true) :
    kindIn kind ["B", "C"] = false := by
  rcases (kindIn_iff kind ["U", "Y"]).1 h with ⟨k, hk, hne, hmem⟩
  subst hk
  simp only [List.mem_cons, List.not_mem_nil, or_false] at hmem
  rcases hmem with h1 | h1 <;>
    simp [kindIn, List.contains, h1]

/-- C5: For every record whose Kind (case-insensitively) is U or Y, both
OpenNumber and OpenDate are null.  The record is assembled by
create_parsed_result from the fields derived by format_numbers for the
same kind, as every variant parser does. -/
theorem c5_kind_UY_open_fields_null
    (app pub pubDate kind appDate mainCpc applicant inventor agent title summary
      drawing emb full claims : Option String)
    (h : kindIn kind ["U", "Y"] = true) :
    let n := format_numbers app pub pubDate kind appDate
    let r := create_parsed_result mainCpc kind n.openNumber n.openDate
      n.registerNumber n.registerDate n.publicationNumber n.publicationDate
      n.appNumberClean appDate applicant inventor agent title summary
      drawing emb full claims
    r.OpenNumber = none ∧ r.OpenDate = none := by
  have hBC := kindIn_UY_not_BC kind h
  simp [format_numbers, hBC, h, create_parsed_result]

/-- Witness for C5 at a concrete lower-case utility-model kind. -/
theorem c5_kind_UY_open_fields_null_witness :
    let n := format_numbers (some "201110123456.7") (some "CN100123") (some "20121212")
      (some "y") (some "20110101")
    let r := create_parsed_result none (some "y") n.openNumber n.openDate
      n.registerNumber n.registerDate n.publicationNumber n.publicationDate
      n.appNumberClean (some "20110101") none none none none none none none none none
    r.OpenNumber = none ∧ r.OpenDate = none :=
  c5_kind_UY_open_fields_null (some "201110123456.7") (some "CN100123")
    (some "20121212") (some "y") (some "20110101") none none none none none none
    none none none none (by decide)

/-- C4 counterexample: for Kind B with application number "." the
normalized application number is the empty string, which format_numbers
demotes to a null RegisterNumber, so the record's RegisterNumber differs
from its normalized ApplicationNumber. -/
theorem c4_counterexample :
    (format_numbers (some ".") (some "CN1") (some "20121212") (some "B")
      (some "20110101")).registerNumber = none ∧
    (format_numbers (some ".") (some "CN1") (some "20121212") (some "B")
      (some "20110101")).appNumberClean = some "" ∧
    clean_application_number (some ".") = some "" ∧
    (format_numbers (some ".") (some "CN1") (some "20121212") (some "B")
        (some "20110101")).registerNumber ≠
      clean_application_number
        ((format_numbers (some ".") (some "CN1") (some "20121212") (some "B")
          (some "20110101")).appNumberClean) := by
  decide

/-- C4 as amended: for every record whose Kind (case-insensitively) is B
or C, RegisterDate equals PublicationDate (both being the publication
date), and RegisterNumber equals the normalized ApplicationNumber
whenever that normalization is truthy, while a null or empty
normalization leaves RegisterNumber null. -/
theorem c4_kind_BC_register_fields
    (app pub pubDate kind appDate : Option String)
    (h : kindIn kind ["B", "C"] = true) :
    let n := format_numbers app pub pubDate kind appDate
    n.registerDate = n.publicationDate ∧
    n.publicationDate = pubDate ∧
    n.appNumberClean = clean_application_number app ∧
    (truthyOS (clean_application_number app) = true →
      n.registerNumber = clean_application_number app) ∧
    (truthyOS (clean_application_number app) = false → n.registerNumber = none) := by
  refine ⟨?_, ?_, ?_, ?_, ?_⟩ <;>
    simp [format_numbers, h] <;> intro hT <;> simp [hT]

/-- Witness for C4's amended statement at a concrete lower-case kind with
a decimal-suffixed application number. -/
theorem c4_kind_BC_register_fields_witness :
    let n := format_numbers (some "201110123456.7") (some "CN2") (some "20121212")
      (some "c") (some "20110101")
    n.registerDate = n.publicationDate ∧
    n.publicationDate = some "20121212" ∧
    n.appNumberClean = clean_application_number (some "201110123456.7") ∧
    (truthyOS (clean_application_number (some "201110123456.7")) = true →
      n.registerNumber = clean_application_number (some "201110123456.7")) ∧
    (truthyOS (clean_application_number (some "201110123456.7")) = false →
      n.registerNumber = none) :=
  c4_kind_BC_register_fields (some "201110123456.7") (some "CN2") (some "20121212")
    (some "c") (some "20110101") (by decide)

/-- C1 counterexample: a document with no description node at all (the
section extractor returns all-None) produces a record whose
BriefDescriptionOfDrawings is null while Description is also null, so
Description being non-null is not equivalent to a description sub-section
being null. -/
theorem c1_counterexample :
    let secs := extract_structured_description XVal.null []
    let r := create_parsed_result none none none none none none none none none
      none none none none none none secs.1 secs.2.1 secs.2.2 none
    r.BriefDescriptionOfDrawings = none ∧ r.DescriptionOfEmbodiments = none ∧
      r.Description = none ∧
      ¬(r.Description ≠ none ↔
          (r.BriefDescriptionOfDrawings = none ∨ r.DescriptionOfEmbodiments = none)) := by
  refine ⟨rfl, rfl, rfl, ?_⟩
  intro hiff
  exact (hiff.2 (Or.inl rfl)) rfl

/-- C1 as amended: for every record built by create_parsed_result whose
section arguments are never the empty string (as holds for all sections
produced by extract_structured_description), Description is non-null
exactly when at least one of BriefDescriptionOfDrawings and
DescriptionOfEmbodiments is null AND the full undivided description text
is non-null; in particular, when both sections are present Description is
null. -/
theorem c1_description_iff
    (mainCpc kind openNumber openDate registerNumber registerDate pubNumber pubDate
      appNumber appDate applicant inventor agent title summary drawing emb full
      claims : Option String) (r : ParsedResult)
    (hr : r = create_parsed_result mainCpc kind openNumber openDate registerNumber
      registerDate pubNumber pubDate appNumber appDate applicant inventor agent
      title summary drawing emb full claims)
    (hd : drawing ≠ some "") (he : emb ≠ some "") :
    (r.Description ≠ none ↔
      ((r.BriefDescriptionOfDrawings = none ∨ r.DescriptionOfEmbodiments = none) ∧
        full ≠ none)) ∧
    (r.BriefDescriptionOfDrawings ≠ none → r.DescriptionOfEmbodiments ≠ none →
      r.Description = none) := by
  subst hr
  cases drawing with
  | none => cases emb <;> cases full <;> simp_all [create_parsed_result, truthyOS]
  | some d =>
    cases emb <;> cases full <;>
      simp_all [create_parsed_result, truthyOS]

/-- Witness for C1's amended statement: a record with only a drawings
section and a full description text has a non-null Description. -/
theorem c1_description_iff_witness :
    ((create_parsed_result none none none none none none none none none
        none none none none none none (some "figures") none (some "full text")
        none).Description ≠ none ↔
      (((create_parsed_result none none none none none none none none none
          none none none none none none (some "figures") none (some "full text")
          none).BriefDescriptionOfDrawings = none ∨
        (create_parsed_result none none none none none none none none none
          none none none none none none (some "figures") none (some "full text")
          none).DescriptionOfEmbodiments = none) ∧
        (some "full text" : Option String) ≠ none)) ∧
    ((create_parsed_result none none none none none none none none none
        none none none none none none (some "figures") none (some "full text")
        none).BriefDescriptionOfDrawings ≠ none →
      (create_parsed_result none none none none none none none none none
        none none none none none none (some "figures") none (some "full text")
        none).DescriptionOfEmbodiments ≠ none →
      (create_parsed_result none none none none none none none none none
        none none none none none none (some "figures") none (some "full text")
        none).Description = none) :=
  c1_description_iff none none none none none none none none none none none none
    none none none (some "figures") none (some "full text") none _ rfl
    (by decide) (by decide)

/-- C9: every record built by create_parsed_result has a null
SummaryOfInvention, so the extraction status derived in process_xml_file
marks that field as missing, the missing-field list is never empty, and a
missing-details report is created for every successful parse. -/
theorem c9_summary_of_invention_always_missing
    (mainCpc kind openNumber openDate registerNumber registerDate pubNumber pubDate
      appNumber appDate applicant inventor agent title summary drawing emb full
      claims : Option String) (path : String) (r : ParsedResult)
    (hr : r = create_parsed_result mainCpc kind openNumber openDate registerNumber
      registerDate pubNumber pubDate appNumber appDate applicant inventor agent
      title summary drawing emb full claims) :
    r.SummaryOfInvention = none ∧
    ("SummaryOfInvention", false) ∈ extraction_status r ∧
    "SummaryOfInvention" ∈ detected_missing_fields r ∧
    (missing_details path r).isSome = true := by
  subst hr
  have h1 : ("SummaryOfInvention", false) ∈ extraction_status
      (create_parsed_result mainCpc kind openNumber openDate registerNumber
        registerDate pubNumber pubDate appNumber appDate applicant inventor agent
        title summary drawing emb full claims) := by
    simp [extraction_status, recordFields, create_parsed_result, fieldPresent]
  have h2 : "SummaryOfInvention" ∈ detected_missing_fields
      (create_parsed_result mainCpc kind openNumber openDate registerNumber
        registerDate pubNumber pubDate appNumber appDate applicant inventor agent
        title summary drawing emb full claims) := by
    rw [detected_missing_fields, List.mem_filterMap]
    exact ⟨("SummaryOfInvention", false), h1, rfl⟩
  have hne : (detected_missing_fields
      (create_parsed_result mainCpc kind openNumber openDate registerNumber
        registerDate pubNumber pubDate appNumber appDate applicant inventor agent
        title summary drawing emb full claims)).isEmpty = false := by
    cases hmm : detected_missing_fields
      (create_parsed_result mainCpc kind openNumber openDate registerNumber
        registerDate pubNumber pubDate appNumber appDate applicant inventor agent
        title summary drawing emb full claims) with
    | nil => rw [hmm] at h2; cases h2
    | cons a l => rfl
  refine ⟨rfl, h1, h2, ?_⟩
  simp [missing_details, hne]

/-- Witness for C9 at a concrete record with every extractable field
present. -/
theorem c9_summary_of_invention_always_missing_witness :
    (create_parsed_result (some "G06F") (some "A") (some "CN1") (some "20121212")
        (some "r") (some "20121212") (some "p") (some "20121212") (some "201110")
        (some "20110101") (some "acme") (some "kim") (some "lee") (some "title")
        (some "summary") (some "figures") (some "detail") (some "full")
        (some "claims")).SummaryOfInvention = none ∧
    ("SummaryOfInvention", false) ∈ extraction_status
      (create_parsed_result (some "G06F") (some "A") (some "CN1") (some "20121212")
        (some "r") (some "20121212") (some "p") (some "20121212") (some "201110")
        (some "20110101") (some "acme") (some "kim") (some "lee") (some "title")
        (some "summary") (some "figures") (some "detail") (some "full")
        (some "claims")) ∧
    "SummaryOfInvention" ∈ detected_missing_fields
      (create_parsed_result (some "G06F") (some "A") (some "CN1") (some "20121212")
        (some "r") (some "20121212") (some "p") (some "20121212") (some "201110")
        (some "20110101") (some "acme") (some "kim") (some "lee") (some "title")
        (some "summary") (some "figures") (some "detail") (some "full")
        (some "claims")) ∧
    (missing_details "a.xml"
      (create_parsed_result (some "G06F") (some "A") (some "CN1") (some "20121212")
        (some "r") (some "20121212") (some "p") (some "20121212") (some "201110")
        (some "20110101") (some "acme") (some "kim") (some "lee") (some "title")
        (some "summary") (some "figures") (some "detail") (some "full")
        (some "claims"))).isSome = true :=
  c9_summary_of_invention_always_missing (some "G06F") (some "A") (some "CN1")
    (some "20121212") (some "r") (some "20121212") (some "p") (some "20121212")
    (some "201110") (some "20110101") (some "acme") (some "kim") (some "lee")
    (some "title") (some "summary") (some "figures") (some "detail") (some "full")
    (some "claims") "a.xml" _ rfl

/-- extract_text on a plain string is the stripped string. -/
theorem extract_text_str (s : String) : extract_text (XVal.str s) = some (pyStrip s) := by
  simp [extract_text, xsize, extractTextFuel]

/-- String.intercalate on a two-element list. -/
theorem intercalate_pair (s a b : String) : String.intercalate s [a, b] = a ++ s ++ b :=
  rfl

/-- C7 counterexample: a CN-format document whose two claims carry
explicit numbering attributes yields the paragraph-mark join of the bare
claim texts; the numbers are computed but discarded, so the result is not
the numbered join the claim requires. -/
theorem c7_counterexample :
    extract_claims (XVal.dict [("application-body", XVal.dict [("claims",
        XVal.dict [("claim", XVal.list
          [XVal.dict [("@num", XVal.str "5"), ("claim-text", XVal.str "first claim")],
           XVal.dict [("@num", XVal.str "6"), ("claim-text", XVal.str "second claim")]])])])])
      = some "first claim¶second claim" ∧
    (some "first claim¶second claim" : Option String) ≠
      some "5. first claim¶6. second claim" := by
  decide

/-- C7 as amended: for documents with at least one extractable claim, the
result is the individual claims joined with the paragraph mark; on the
Business-format path each claim is prefixed with its explicit numbering
attribute when present, or its 1-based position when absent, while on the
CN-format path the claims are joined without any numbering (the computed
number is discarded). -/
theorem c7_claim_joining (n1 t1 t2 : String)
    (h1 : pyStrip t1 = t1) (h1e : t1 ≠ "") (h2 : pyStrip t2 = t2) (h2e : t2 ≠ "") :
    extract_claims (XVal.dict [("Claims", XVal.dict [("Claim", XVal.list
        [XVal.dict [("@num", XVal.str n1), ("ClaimText", XVal.str t1)],
         XVal.dict [("ClaimText", XVal.str t2)]])])])
      = some (n1 ++ ". " ++ t1 ++ "¶" ++ ("2. " ++ t2)) ∧
    extract_claims (XVal.dict [("application-body", XVal.dict [("claims",
        XVal.dict [("claim", XVal.list
          [XVal.dict [("@num", XVal.str n1), ("claim-text", XVal.str t1)],
           XVal.dict [("@num", XVal.str "7"), ("claim-text", XVal.str t2)]])])])])
      = some (t1 ++ "¶" ++ t2) := by
  constructor
  · simp [extract_claims, truthy, pyLookup, safe_get, businessClaimStrings,
      businessClaimOne, pyFStr, extract_text_str, h1, h2, h1e, h2e,
      List.enumFrom, intercalate_pair]
    rfl
  · simp [extract_claims, truthy, pyLookup, safe_get, cnClaimStrings,
      cnClaimOne, pyFStr, extract_text_str, h1, h2, h1e, h2e,
      List.enumFrom, intercalate_pair]

/-- Witness for C7's amended statement at concrete claim texts. -/
theorem c7_claim_joining_witness :
    extract_claims (XVal.dict [("Claims", XVal.dict [("Claim", XVal.list
        [XVal.dict [("@num", XVal.str "12"), ("ClaimText", XVal.str "a widget")],
         XVal.dict [("ClaimText", XVal.str "a gadget")]])])])
      = some ("12" ++ ". " ++ "a widget" ++ "¶" ++ ("2. " ++ "a gadget")) ∧
    extract_claims (XVal.dict [("application-body", XVal.dict [("claims",
        XVal.dict [("claim", XVal.list
          [XVal.dict [("@num", XVal.str "12"), ("claim-text", XVal.str "a widget")],
           XVal.dict [("@num", XVal.str "7"), ("claim-text", XVal.str "a gadget")]])])])])
      = some ("a widget" ++ "¶" ++ "a gadget") :=
  c7_claim_joining "12" "a widget" "a gadget" (by decide) (by decide) (by decide)
    (by decide)

/-- C6 counterexample: when the key is present directly in the top-level
map and its value is a text wrapper, safe_get's fast path returns the
wrapper map itself, not the text content, although the same wrapper one
level deeper is unwrapped by the search. -/
theorem c6_counterexample :
    safe_get (XVal.dict [("k", XVal.dict [("#text", XVal.str "v")])]) "k"
      = XVal.dict [("#text", XVal.str "v")] ∧
    XVal.dict [("#text", XVal.str "v")] ≠ XVal.str "v" ∧
    safe_get (XVal.dict [("outer",
        XVal.dict [("k", XVal.dict [("#text", XVal.str "v")])])]) "k"
      = XVal.str "v" := by
  refine ⟨rfl, ?_, rfl⟩
  intro h
  exact XVal.noConfusion h

/-- C6 as amended: matches found during the breadth-first search are
unwrapped through a "#text" or "text" key when the matched value is a
map containing one, and the collected results are dispatched as null for
no match, the match itself for exactly one, and the list of matches for
several; but when the key is present directly in the top-level map given
to safe_get, the stored value is returned unchanged, without the unwrap
rule. -/
theorem c6_safe_get_dispatch_and_unwrap :
    (∀ (es : List (String × XVal)) (key : String) (v : XVal),
      pyLookup es key = some v → safe_get (XVal.dict es) key = v) ∧
    (∀ (nid : List Nat) (i : Nat) (ves : List (String × XVal)) (t : XVal),
      pyLookup ves "#text" = some t →
        (matchContribution nid i (XVal.dict ves)).1 = [t]) ∧
    (∀ (nid : List Nat) (i : Nat) (ves : List (String × XVal)) (t : XVal),
      pyLookup ves "#text" = none → pyLookup ves "text" = some t →
        (matchContribution nid i (XVal.dict ves)).1 = [t]) ∧
    dispatchResults [] = XVal.null ∧
    (∀ r, dispatchResults [r] = r) ∧
    (∀ a b rs, dispatchResults (a :: b :: rs) = XVal.list (a :: b :: rs)) := by
  refine ⟨?_, ?_, ?_, rfl, fun r => rfl, fun a b rs => rfl⟩
  · intro es key v h
    simp [safe_get, h]
  · intro nid i ves t h
    simp [matchContribution, h]
  · intro nid i ves t h h2
    simp [matchContribution, h, h2]

/-- Witness for C6's amended statement at concrete inputs. -/
theorem c6_safe_get_dispatch_and_unwrap_witness :
    safe_get (XVal.dict [("k", XVal.str "raw")]) "k" = XVal.str "raw" ∧
    (matchContribution [] 0 (XVal.dict [("#text", XVal.str "v")])).1
      = [XVal.str "v"] ∧
    (matchContribution [] 0 (XVal.dict [("a", XVal.str "w"),
        ("text", XVal.str "v")])).1 = [XVal.str "v"] ∧
    dispatchResults [] = XVal.null ∧
    dispatchResults [XVal.str "m"] = XVal.str "m" ∧
    dispatchResults [XVal.str "m", XVal.str "n"]
      = XVal.list [XVal.str "m", XVal.str "n"] :=
  ⟨c6_safe_get_dispatch_and_unwrap.1 [("k", XVal.str "raw")] "k" (XVal.str "raw") rfl,
   c6_safe_get_dispatch_and_unwrap.2.1 [] 0 [("#text", XVal.str "v")] (XVal.str "v") rfl,
   c6_safe_get_dispatch_and_unwrap.2.2.1 [] 0 [("a", XVal.str "w"), ("text", XVal.str "v")]
     (XVal.str "v") rfl rfl,
   c6_safe_get_dispatch_and_unwrap.2.2.2.1,
   c6_safe_get_dispatch_and_unwrap.2.2.2.2.1 (XVal.str "m"),
   c6_safe_get_dispatch_and_unwrap.2.2.2.2.2 (XVal.str "m") (XVal.str "n") []⟩

/-- One step of the per-field update loop. -/
theorem bumpFields_cons (p : String × Bool) (rest : List (String × Bool))
    (c : String → Nat) :
    bumpFields (p :: rest) c
      = bumpFields rest
          (if p.2 then fun f => if f = p.1 then c f + 1 else c f else c) := rfl

/-- The per-field update loop adds, to each counter, a delta that depends
only on the status map. -/
theorem bumpFields_add (status : List (String × Bool)) (c : String → Nat)
    (f : String) :
    bumpFields status c f = c f + bumpFields status (fun _ => 0) f := by
  induction status generalizing c with
  | nil => simp [bumpFields]
  | cons p rest ih =>
    rw [bumpFields_cons, bumpFields_cons]
    by_cases hp : p.2 = true
    · simp only [hp, if_true]
      rw [ih, ih (fun f => if f = p.1 then (0 : Nat) + 1 else (0 : Nat))]
      by_cases hf : f = p.1
      · simp only [hf, if_pos]
        omega
      · simp only [hf, if_neg, ite_false]
        omega
    · simp only [Bool.not_eq_true] at hp
      simp only [hp, Bool.false_eq_true, if_false]
      exact ih c

/-- updateStats increments the processed-item count by one. -/
theorem updateStats_items (it : Item) (a : StatsAcc) :
    (updateStats it a).items = a.items + 1 := by
  simp only [updateStats]
  split <;> split <;> simp

/-- updateStats applies the per-field update loop to the field counters. -/
theorem updateStats_fields (it : Item) (a : StatsAcc) :
    (updateStats it a).fields = bumpFields it.status a.fields := by
  simp only [updateStats]
  split <;> split <;> simp

/-- Exhausting a stream of plain results finishes the year normally on
the folded state. -/
theorem runEvents_results (maxItems maxSizeBytes : Nat) (st : YearState)
    (results : List (Option Item)) :
    runEvents maxItems maxSizeBytes st (results.map YearEvent.result)
      = finishYear (results.foldl (processResult maxItems maxSizeBytes) st) := by
  induction results generalizing st with
  | nil => rfl
  | cons r rest ih => simp [runEvents, ih]

/-- An interruption after a sequence of results aborts through the
interrupt handler on the folded state, whatever would have followed. -/
theorem runEvents_interruptAfter (maxItems maxSizeBytes : Nat) (st : YearState)
    (results : List (Option Item)) (rest : List YearEvent) :
    runEvents maxItems maxSizeBytes st
        (results.map YearEvent.result ++ YearEvent.interrupt :: rest)
      = interruptYear (results.foldl (processResult maxItems maxSizeBytes) st) := by
  induction results generalizing st with
  | nil => rfl
  | cons r rs ih => simp [runEvents, ih]

/-- The processing loop keeps, for every field, the year-level counter
equal to the sum over sealed chunks plus the active chunk's counter, and
keeps the active chunk's counters zero while the active chunk has no
records. -/
def FieldInv (st : YearState) : Prop :=
  ∀ f : String,
    st.yearStats.fields f
      = (st.sealed.map fun c => c.stats.fields f).sum + st.curStats.fields f ∧
    (st.curData = [] → st.curStats.fields f = 0)

/-- The field invariant holds initially. -/
theorem fieldInv_init : FieldInv initState := by
  intro f
  simp [initState, emptyStats]

/-- The field invariant is preserved by one loop iteration. -/
theorem fieldInv_step (maxItems maxSizeBytes : Nat) (st : YearState)
    (r : Option Item) (h : FieldInv st) :
    FieldInv (processResult maxItems maxSizeBytes st r) := by
  cases r with
  | none =>
    intro f
    simpa [processResult] using h f
  | some it =>
    intro f
    obtain ⟨hsum, hzero⟩ := h f
    simp only [processResult]
    split
    · constructor
      · simp [updateStats_fields, bumpFields_add it.status st.yearStats.fields,
          bumpFields_add it.status st.curStats.fields, hsum, emptyStats]
        omega
      · intro hcon
        cases hcon
    · constructor
      · simp [updateStats_fields, bumpFields_add it.status st.yearStats.fields,
          bumpFields_add it.status st.curStats.fields, hsum]
        omega
      · intro hcon
        simp at hcon
  
/-- The field invariant holds after any sequence of results. -/
theorem fieldInv_run (maxItems maxSizeBytes : Nat) (results : List (Option Item)) :
    FieldInv (runYearState maxItems maxSizeBytes results) := by
  rw [runYearState]
  induction results using List.reverseRecOn with
  | nil => exact fieldInv_init
  | append_singleton rs r ih =>
    rw [List.foldl_append]
    exact fieldInv_step _ _ _ _ ih

/-- C3: for every completed year and every field name, the year-level
success counter equals the sum of that field's success counters across
all of the year's sealed chunk-level statistics accumulators, the final
partial chunk included. -/
theorem c3_year_stats_additive (maxItems maxSizeBytes : Nat)
    (results : List (Option Item)) (f : String) :
    (process_year maxItems maxSizeBytes results).yearStats.fields f
      = ((process_year maxItems maxSizeBytes results).chunksOnDisk.map
          fun c => c.stats.fields f).sum := by
  rw [process_year, runEvents_results]
  obtain ⟨hsum, hzero⟩ := fieldInv_run maxItems maxSizeBytes results f
  rw [runYearState] at hsum hzero
  simp only [finishYear]
  split
  · rename_i hne
    simp only [List.map_append, List.sum_append, List.map_cons, List.map_nil,
      List.sum_cons, List.sum_nil]
    omega
  · rename_i hemp
    simp only [List.isEmpty_eq_false, ne_eq, not_not] at hemp
    rw [hsum, hzero hemp]
    simp

/-- The record-count and serialized-size bounds a chunk's data must
satisfy: at most maxItems records, and, for chunks with at least two
records, a cumulative size within maxSizeBytes (a single record is placed
unconditionally and may exceed the size bound). -/
def ChunkOk (maxItems maxSizeBytes : Nat) (data : List Item) : Prop :=
  data.length ≤ maxItems ∧
    (2 ≤ data.length → (data.map Item.size).sum ≤ maxSizeBytes)

/-- The processing loop keeps every sealed chunk and the active chunk
within bounds, and keeps the running size equal to the active chunk's
summed record sizes. -/
def BoundsInv (maxItems maxSizeBytes : Nat) (st : YearState) : Prop :=
  (∀ c ∈ st.sealed, ChunkOk maxItems maxSizeBytes c.data) ∧
  ChunkOk maxItems maxSizeBytes st.curData ∧
  st.curSize = (st.curData.map Item.size).sum

/-- The bounds invariant holds initially. -/
theorem boundsInv_init (maxItems maxSizeBytes : Nat) :
    BoundsInv maxItems maxSizeBytes initState := by
  refine ⟨?_, ⟨?_, ?_⟩, ?_⟩ <;> simp [initState, ChunkOk]

/-- The bounds invariant is preserved by one loop iteration when at least
one record per chunk is allowed. -/
theorem boundsInv_step (maxItems maxSizeBytes : Nat) (hmax : 1 ≤ maxItems)
    (st : YearState) (r : Option Item) (h : BoundsInv maxItems maxSizeBytes st) :
    BoundsInv maxItems maxSizeBytes (processResult maxItems maxSizeBytes st r) := by
  obtain ⟨hsealed, ⟨hlen, hsz⟩, hsize⟩ := h
  cases r with
  | none => exact ⟨hsealed, ⟨hlen, hsz⟩, hsize⟩
  | some it =>
    simp only [processResult]
    split
    · refine ⟨?_, ⟨?_, ?_⟩, ?_⟩
      · intro c hc
        simp only [List.mem_append, List.mem_singleton] at hc
        rcases hc with hc | hc
        · exact hsealed c hc
        · subst hc
          exact ⟨hlen, hsz⟩
      · simpa using hmax
      · intro h2
        simp at h2
      · simp
    · rename_i hcond
      by_cases hE : st.curData.isEmpty = false
      · have hB : ¬ maxItems ≤ st.curData.length := by
          intro hb
          exact hcond ⟨hE, Or.inl hb⟩
        have hC : ¬ maxSizeBytes < st.curSize + it.size := by
          intro hb
          exact hcond ⟨hE, Or.inr hb⟩
        refine ⟨hsealed, ⟨?_, ?_⟩, ?_⟩
        · simp only [List.length_append, List.length_singleton]
          omega
        · intro _
          simp only [List.map_append, List.sum_append, List.map_singleton,
            List.sum_singleton]
          omega
        · simp only [List.map_append, List.sum_append, List.map_singleton,
            List.sum_singleton]
          omega
      · simp only [Bool.not_eq_false, List.isEmpty_iff] at hE
        rw [hE] at hsize
        simp only [List.map_nil, List.sum_nil] at hsize
        refine ⟨hsealed, ⟨?_, ?_⟩, ?_⟩
        · simpa [hE] using hmax
        · intro h2
          simp [hE] at h2
        · simp [hE, hsize]

/-- The bounds invariant holds after any sequence of results. -/
theorem boundsInv_run (maxItems maxSizeBytes : Nat) (hmax : 1 ≤ maxItems)
    (results : List (Option Item)) :
    BoundsInv maxItems maxSizeBytes (runYearState maxItems maxSizeBytes results) := by
  rw [runYearState]
  induction results using List.reverseRecOn with
  | nil => exact boundsInv_init maxItems maxSizeBytes
  | append_singleton rs r ih =>
    rw [List.foldl_append]
    exact boundsInv_step _ _ hmax _ _ ih

/-- A concrete parsed item used by concrete instantiations. -/
def exItem : Item :=
  { size := 5, status := [("Title", true), ("Summary", false)], kind := some "A",
    hasBriefDrawings := false, hasEmbodiments := true, missing := some "report-1" }

/-- A concrete consumer-loop state holding one active record with its
chunk counters in sync, as before any seal. -/
def exState : YearState :=
  { sealed := [], curData := [exItem], curSize := 5,
    curStats := { items := 1, fields := fun _ => 0, kindATotal := 1,
                  kindAOpenNumber := 0, kindAOpenDate := 0, descTotal := 1,
                  descSucc := 0 },
    curMissing := ["report-1"], yearStats := emptyStats, yearMissing := ["report-1"],
    successCount := 1, failCount := 0 }

/-- C2 counterexample: with max_items_per_file set to 0, process_year
still seals a chunk holding one record, so the record-count bound of the
claim is violated (the claim's exception covers only the size bound). -/
theorem c2_counterexample :
    ((process_year 0 1000000 [some exItem]).chunksOnDisk.map
        fun c => c.data.length) = [1] ∧
    ¬ (1 ≤ 0) := by
  constructor
  · rfl
  · omega

/-- C2 as amended: when max_items_per_file is at least 1, every chunk
sealed by process_year holds at most max_items_per_file records, and
every sealed chunk with at least two records has cumulative serialized
size at most max_size_bytes (a chunk with exactly one record may exceed
either bound); moreover a record seals the active chunk exactly when the
active chunk is non-empty and appending the record would push it past
either bound, and a failed result never seals. -/
theorem c2_chunk_bounds (maxItems maxSizeBytes : Nat) (hmax : 1 ≤ maxItems) :
    (∀ results : List (Option Item),
      ∀ c ∈ (process_year maxItems maxSizeBytes results).chunksOnDisk,
        c.data.length ≤ maxItems ∧
          (2 ≤ c.data.length → (c.data.map Item.size).sum ≤ maxSizeBytes)) ∧
    (∀ (st : YearState) (it : Item),
      (processResult maxItems maxSizeBytes st (some it)).sealed.length
          = st.sealed.length + 1 ↔
        (st.curData.isEmpty = false ∧
          (maxItems < st.curData.length + 1 ∨ maxSizeBytes < st.curSize + it.size))) ∧
    (∀ st : YearState, (processResult maxItems maxSizeBytes st none).sealed
      = st.sealed) := by
  refine ⟨?_, ?_, fun st => rfl⟩
  · intro results c hc
    have hinv := boundsInv_run maxItems maxSizeBytes hmax results
    have hpy : process_year maxItems maxSizeBytes results
        = finishYear (runYearState maxItems maxSizeBytes results) :=
      runEvents_results maxItems maxSizeBytes initState results
    rw [hpy] at hc
    simp only [finishYear] at hc
    rcases List.mem_append.1 hc with hmem | hmem
    · exact hinv.1 c hmem
    · split at hmem
      · simp only [List.mem_singleton] at hmem
        subst hmem
        exact hinv.2.1
      · cases hmem
  · intro st it
    simp only [processResult]
    constructor
    · intro hlen
      split at hlen
      · rename_i hcond
        exact ⟨hcond.1, hcond.2.elim (fun h => Or.inl (by omega)) Or.inr⟩
      · simp at hlen
    · intro hcond
      have hcond2 : st.curData.isEmpty = false ∧
          (maxItems ≤ st.curData.length ∨ maxSizeBytes < st.curSize + it.size) :=
        ⟨hcond.1, hcond.2.elim (fun h => Or.inl (by omega)) Or.inr⟩
      rw [if_pos hcond2]
      simp

/-- Witness for C2's amended statement: the very first record never seals
(the active chunk is empty), instantiated concretely. -/
theorem c2_chunk_bounds_witness :
    (processResult 1 10 initState (some exItem)).sealed.length
        = initState.sealed.length + 1 ↔
      (initState.curData.isEmpty = false ∧
        (1 < initState.curData.length + 1 ∨ 10 < initState.curSize + exItem.size)) :=
  (c2_chunk_bounds 1 10 (by omega)).2.1 initState exItem

/-- C8: an interruption striking during a year's processing, after any
prefix of results and whatever events would have followed, leaves
exactly the chunks the prefix had sealed on disk and hands back the
year-level statistics, missing reports and tallies accumulated over that
prefix, so the partial run's report is consistent with the work done. -/
theorem c8_interrupt_partial_consistent (maxItems maxSizeBytes : Nat)
    (results : List (Option Item)) (rest : List YearEvent) :
    let o := runEvents maxItems maxSizeBytes initState
      (results.map YearEvent.result ++ YearEvent.interrupt :: rest)
    let p := runYearState maxItems maxSizeBytes results
    o.chunksOnDisk = p.sealed ∧ o.yearStats = p.yearStats ∧
      o.yearMissing = p.yearMissing ∧ o.successCount = p.successCount ∧
      o.failCount = p.failCount ∧ o.interrupted = true := by
  simp [runEvents_interruptAfter, interruptYear, runYearState]

/-- C10: when a record's arrival seals the active chunk, the sealed
chunk's statistics and missing list include that record (the item count
grows by one and the missing report is appended) while its data excludes
it, the record opening the next chunk instead; with the chunk counters in
sync on entry, as before any seal, the sealed chunk's processed-item
count therefore exceeds its record count by one. -/
theorem c10_seal_attribution (maxItems maxSizeBytes : Nat) (st : YearState)
    (it : Item) (hne : st.curData.isEmpty = false)
    (hseal : maxItems ≤ st.curData.length ∨ maxSizeBytes < st.curSize + it.size) :
    let st2 := processResult maxItems maxSizeBytes st (some it)
    st2.sealed = st.sealed ++
      [{ data := st.curData, stats := updateStats it st.curStats,
         missing := st.curMissing ++ it.missing.toList }] ∧
    st2.curData = [it] ∧ st2.curStats = emptyStats ∧ st2.curMissing = [] ∧
    (updateStats it st.curStats).items = st.curStats.items + 1 ∧
    (st.curStats.items = st.curData.length →
      (updateStats it st.curStats).items = st.curData.length + 1) := by
  have hcond : st.curData.isEmpty = false ∧
      (maxItems ≤ st.curData.length ∨ maxSizeBytes < st.curSize + it.size) :=
    ⟨hne, hseal⟩
  simp only [processResult, if_pos hcond]
  simp [updateStats_items]

/-- Witness for C10 at a concrete one-record state sealed by the count
bound. -/
theorem c10_seal_attribution_witness :
    let st2 := processResult 1 10 exState (some exItem)
    st2.sealed = exState.sealed ++
      [{ data := exState.curData, stats := updateStats exItem exState.curStats,
         missing := exState.curMissing ++ exItem.missing.toList }] ∧
    st2.curData = [exItem] ∧ st2.curStats = emptyStats ∧ st2.curMissing = [] ∧
    (updateStats exItem exState.curStats).items = exState.curStats.items + 1 ∧
    (exState.curStats.items = exState.curData.length →
      (updateStats exItem exState.curStats).items = exState.curData.length + 1) :=
  c10_seal_attribution 1 10 exState exItem (by decide) (Or.inl (by decide))
